import Mathlib

/-!
Shallow embedding of the certificate-generator backend (src/app.py).

The store (the SQLite `certificates` table) is modelled as a list of
records in insertion order; surrogate ids are assigned sequentially on
insert, as SQLite rowids are.  Each HTTP handler becomes a function from
the store and the parsed JSON body to a response paired with the
resulting store.  A JSON payload is modelled with `Option` fields: `none`
means the key is absent from the dict (Python's `k in data` check);
`some v` means the key is present with string value `v`.
-/

namespace CertApp

/-- Certificate row of the `certificates` table (src/app.py lines 32-37):
surrogate integer primary key `id`, plus `name`, unique `code` and
`image_data`. -/
structure Certificate where
  id : Nat
  name : String
  code : String
  image_data : String
deriving Repr, DecidableEq

/-- The certificates table, in insertion order. -/
abbrev Store := List Certificate

/-- Parsed JSON object for one candidate certificate: each field is
`none` when the key is absent from the dict, `some v` when present. -/
structure CertPayload where
  name : Option String
  code : Option String
  image_data : Option String
deriving Repr, DecidableEq

/-- Model of `Certificate.query.filter_by(code=c).first()`: the first
row of the table whose `code` column equals `c`, if any. -/
def queryFilterByCodeFirst (s : Store) (c : String) : Option Certificate :=
  s.find? (fun r => r.code == c)

/-- Response of the single-add endpoint `POST /api/certificates`
(src/app.py lines 53-75): 400 `Missing data`, 409 duplicate code, or
201 created with the new row's id. -/
inductive SingleResult where
  | missingData
  | duplicate
  | created (id : Nat)
deriving Repr, DecidableEq

/-- HTTP status of each single-add response. -/
def SingleResult.status : SingleResult → Nat
  | .missingData => 400
  | .duplicate => 409
  | .created _ => 201

/-- Handler `add_certificate` (src/app.py lines 53-75).  Returns 400 if
the body is missing or lacks one of `name`, `code`, `image_data`
(`not data or not all(k in data ...)`); 409 if a row with the code
already exists; otherwise appends the new row (SQLite assigns the next
rowid) and returns 201 with its id. -/
def add_certificate (s : Store) (data : Option CertPayload) :
    SingleResult × Store :=
  match data with
  | some ⟨some n, some c, some img⟩ =>
    if (queryFilterByCodeFirst s c).isSome then
      (.duplicate, s)
    else
      (.created (s.length + 1), s ++ [⟨s.length + 1, n, c, img⟩])
  | _ => (.missingData, s)

/-- An in-memory `Certificate(...)` object built in the bulk loop,
before the store has assigned it an id. -/
structure NewCert where
  name : String
  code : String
  image_data : String
deriving Repr, DecidableEq

/-- Loop of `add_bulk_certificates` (src/app.py lines 87-99) building
`certs_to_add`: items missing one of the three keys are skipped, and an
item is appended exactly when `Certificate.query.filter_by(code=...)`
finds no row in the table.  The table `s` is unchanged throughout the
loop (nothing is flushed before `bulk_save_objects`), so every query
runs against the same pre-batch table: there is no in-batch seen-codes
check. -/
def certsToAdd (s : Store) : List CertPayload → List NewCert
  | [] => []
  | item :: rest =>
    match item with
    | ⟨some n, some c, some img⟩ =>
      if (queryFilterByCodeFirst s c).isSome then
        certsToAdd s rest
      else
        ⟨n, c, img⟩ :: certsToAdd s rest
    | _ => certsToAdd s rest

/-- Rows produced by `bulk_save_objects`: sequential ids continuing
from `n`, one row per accepted object, in order. -/
def assignIds (n : Nat) : List NewCert → List Certificate
  | [] => []
  | r :: rs => ⟨n + 1, r.name, r.code, r.image_data⟩ :: assignIds (n + 1) rs

/-- The unique constraint on `code` (src/app.py line 35), as checked by
the storage engine when the batch is flushed at commit: the commit
succeeds iff the batch codes are pairwise distinct and none is already
in the table. -/
def insertManyOk (s : Store) (l : List NewCert) : Bool :=
  decide (l.map NewCert.code).Nodup &&
    l.all (fun r => (queryFilterByCodeFirst s r.code).isNone)

/-- Response of the bulk endpoint `POST /api/certificates/bulk`
(src/app.py lines 77-107): 400 `Missing certificate list`, 200 when
nothing was accepted, 201 reporting `len(certs_to_add)`, or 500 when
the commit raises an unhandled `IntegrityError` from the unique
constraint on `code` (Flask surfaces the uncaught exception as an
internal server error and the transaction is rolled back). -/
inductive BulkResult where
  | missingList
  | noNew
  | added (n : Nat)
  | serverError
deriving Repr, DecidableEq

/-- HTTP status of each bulk response. -/
def BulkResult.status : BulkResult → Nat
  | .missingList => 400
  | .noNew => 200
  | .added _ => 201
  | .serverError => 500

/-- Handler `add_bulk_certificates` (src/app.py lines 77-107).  The
request body is `none` for a missing or falsy JSON body, and
`some cs` for a dict whose `certificates` key is `cs` (`cs = none` when
the key is absent).  With the key present, the loop builds
`certs_to_add`; an empty result is reported as 200 without touching the
table, otherwise `bulk_save_objects` plus `commit` either persists all
rows (reporting `len(certs_to_add)`) or hits the unique constraint and
fails with nothing persisted. -/
def add_bulk_certificates (s : Store) (data : Option (Option (List CertPayload))) :
    BulkResult × Store :=
  match data with
  | some (some items) =>
    let toAdd := certsToAdd s items
    if toAdd.isEmpty then
      (.noNew, s)
    else if insertManyOk s toAdd then
      (.added toAdd.length, s ++ assignIds s.length toAdd)
    else
      (.serverError, s)
  | _ => (.missingList, s)

/-- Response of the lookup endpoint `GET /api/certificates/<code>`
(src/app.py lines 110-124): 200 with the row's three public fields, or
404. -/
inductive LookupResult where
  | found (name code image_data : String)
  | notFound
deriving Repr, DecidableEq

/-- HTTP status of each lookup response. -/
def LookupResult.status : LookupResult → Nat
  | .found _ _ _ => 200
  | .notFound => 404

/-- Handler `get_certificate` (src/app.py lines 110-124): a point query
by code, returning the matching row's fields or 404.  The table is
passed through unchanged. -/
def get_certificate (s : Store) (c : String) : LookupResult × Store :=
  match queryFilterByCodeFirst s c with
  | some cert => (.found cert.name cert.code cert.image_data, s)
  | none => (.notFound, s)

/-- Uniqueness invariant of the data model: no two rows share a `code`. -/
def codesUnique (s : Store) : Prop :=
  (s.map Certificate.code).Nodup

/-- When the point query finds nothing, the code is absent from the
table's `code` column. -/
theorem not_mem_codes_of_query_none {s : Store} {c : String}
    (h : queryFilterByCodeFirst s c = none) :
    c ∉ s.map Certificate.code := by
  rw [queryFilterByCodeFirst, List.find?_eq_none] at h
  simp only [List.mem_map]
  rintro ⟨r, hr, hrc⟩
  exact h r hr (by simp [hrc])

/-- Assigning ids does not change the codes of a batch. -/
theorem codes_assignIds (n : Nat) (l : List NewCert) :
    (assignIds n l).map Certificate.code = l.map NewCert.code := by
  induction l generalizing n with
  | nil => rfl
  | cons r rs ih => simp [assignIds, ih]

/-- Assigning ids does not change the size of a batch. -/
theorem length_assignIds (n : Nat) (l : List NewCert) :
    (assignIds n l).length = l.length := by
  induction l generalizing n with
  | nil => rfl
  | cons r rs ih => simp [assignIds, ih]

/-- When the pre-batch table has no row with code `c`, a point query on
the committed table reduces to a point query on the new rows. -/
theorem query_append_of_none {s t : Store} {c : String}
    (h : queryFilterByCodeFirst s c = none) :
    queryFilterByCodeFirst (s ++ t) c = queryFilterByCodeFirst t c := by
  unfold queryFilterByCodeFirst at *
  rw [List.find?_append, h]
  rfl

/-- In a batch with pairwise-distinct codes, the point query on the
freshly inserted rows finds exactly the row built from the accepted
object. -/
theorem query_assignIds_of_mem {l : List NewCert} {r : NewCert}
    (hnd : (l.map NewCert.code).Nodup) (hr : r ∈ l) (n : Nat) :
    ∃ i, queryFilterByCodeFirst (assignIds n l) r.code =
      some ⟨i, r.name, r.code, r.image_data⟩ := by
  induction l generalizing n with
  | nil => cases hr
  | cons a as ih =>
    rw [List.map_cons, List.nodup_cons] at hnd
    rcases List.mem_cons.mp hr with rfl | hmem
    · refine ⟨n + 1, ?_⟩
      unfold assignIds queryFilterByCodeFirst
      exact List.find?_cons_of_pos _ (by simp)
    · have hne : a.code ≠ r.code := by
        intro he
        exact hnd.1 (he ▸ List.mem_map.mpr ⟨r, hmem, rfl⟩)
      obtain ⟨i, hi⟩ := ih hnd.2 hmem (n + 1)
      refine ⟨i, ?_⟩
      simp only [assignIds, queryFilterByCodeFirst]
      rw [List.find?_cons_of_neg _ (by simp [hne])]
      exact hi

/-- The unique-constraint check passing means the batch codes are
pairwise distinct and absent from the table. -/
theorem insertManyOk_spec {s : Store} {l : List NewCert}
    (hok : insertManyOk s l = true) :
    (l.map NewCert.code).Nodup ∧
      ∀ r ∈ l, queryFilterByCodeFirst s r.code = none := by
  rw [insertManyOk, Bool.and_eq_true] at hok
  refine ⟨of_decide_eq_true hok.1, fun r hr => ?_⟩
  have := (List.all_eq_true.mp hok.2) r hr
  exact Option.isNone_iff_eq_none.mp this

/-- A successful batch commit preserves uniqueness of codes. -/
theorem codesUnique_append_of_ok {s : Store} {l : List NewCert}
    (hs : codesUnique s) (hok : insertManyOk s l = true) (n : Nat) :
    codesUnique (s ++ assignIds n l) := by
  obtain ⟨hnd, habs⟩ := insertManyOk_spec hok
  unfold codesUnique at *
  rw [List.map_append, codes_assignIds, List.nodup_append]
  refine ⟨hs, hnd, ?_⟩
  intro a ha hal
  obtain ⟨r, hr, rfl⟩ := List.mem_map.mp hal
  exact not_mem_codes_of_query_none (habs r hr) ha

/-- When every item of the batch is malformed or duplicates a stored
code, the loop accepts nothing. -/
theorem certsToAdd_eq_nil (s : Store) (items : List CertPayload)
    (h : ∀ it ∈ items, it.name = none ∨ it.code = none ∨ it.image_data = none ∨
      ∃ c, it.code = some c ∧ (queryFilterByCodeFirst s c).isSome = true) :
    certsToAdd s items = [] := by
  induction items with
  | nil => rfl
  | cons it rest ih =>
    have hit := h it (List.mem_cons_self it rest)
    have hrest := ih fun x hx => h x (List.mem_cons_of_mem it hx)
    obtain ⟨pn, pc, pi⟩ := it
    cases pn with
    | none => cases pc <;> cases pi <;> simpa [certsToAdd] using hrest
    | some nv =>
      cases pc with
      | none => cases pi <;> simpa [certsToAdd] using hrest
      | some cv =>
        cases pi with
        | none => simpa [certsToAdd] using hrest
        | some iv =>
          rcases hit with h1 | h1 | h1 | ⟨c, hc, hex⟩
          · exact absurd h1 (by simp)
          · exact absurd h1 (by simp)
          · exact absurd h1 (by simp)
          · cases hc
            simpa [certsToAdd, hex] using hrest

/-- C1: on the spec's own bulk example `[{A, code=1}, {B, code=1},
{C, code=2}]` against an empty store, the loop accepts all three items
(there is no in-batch seen-codes check, contrary to the code's own
comment), so the commit violates the unique constraint on `code`: the
request fails with an unhandled error (HTTP 500) and zero records are
written, not two with first-seen-wins. -/
theorem C1_intra_batch_duplicate_bug :
    certsToAdd [] [⟨some "A", some "1", some "x"⟩, ⟨some "B", some "1", some "y"⟩,
        ⟨some "C", some "2", some "z"⟩] =
      [⟨"A", "1", "x"⟩, ⟨"B", "1", "y"⟩, ⟨"C", "2", "z"⟩] ∧
    add_bulk_certificates []
        (some (some [⟨some "A", some "1", some "x"⟩, ⟨some "B", some "1", some "y"⟩,
          ⟨some "C", some "2", some "z"⟩])) = (.serverError, []) ∧
    BulkResult.serverError.status = 500 := by
  exact ⟨rfl, rfl, rfl⟩

/-- C2: starting from any store whose codes are pairwise distinct,
both the single-add handler and the bulk handler leave a store whose
codes are pairwise distinct, for every request body. -/
theorem C2_code_uniqueness_invariant (s : Store) (hs : codesUnique s)
    (d : Option CertPayload) (b : Option (Option (List CertPayload))) :
    codesUnique (add_certificate s d).2 ∧
      codesUnique (add_bulk_certificates s b).2 := by
  constructor
  · match d with
    | none => exact hs
    | some ⟨none, pc, pi⟩ => exact hs
    | some ⟨some nv, none, pi⟩ => exact hs
    | some ⟨some nv, some cv, none⟩ => exact hs
    | some ⟨some nv, some cv, some iv⟩ =>
      unfold add_certificate
      cases hq : queryFilterByCodeFirst s cv with
      | some r => simpa [hq] using hs
      | none =>
        simp only [hq, Option.isSome_none, if_neg Bool.false_ne_true]
        unfold codesUnique
        rw [List.map_append, List.nodup_append]
        refine ⟨hs, List.nodup_singleton cv, ?_⟩
        intro a ha hal
        rw [List.map_singleton, List.mem_singleton] at hal
        rw [hal] at ha
        exact not_mem_codes_of_query_none hq ha
  · match b with
    | none => exact hs
    | some none => exact hs
    | some (some items) =>
      unfold add_bulk_certificates
      by_cases h1 : (certsToAdd s items).isEmpty
      · simpa [h1] using hs
      · by_cases h2 : insertManyOk s (certsToAdd s items)
        · simpa [h1, h2] using codesUnique_append_of_ok hs h2 s.length
        · simpa [h1, h2] using hs

/-- C2 witness: the empty store satisfies the invariant, and both
handlers preserve it there on an empty request body. -/
theorem C2_code_uniqueness_invariant_witness :
    codesUnique (add_certificate [] none).2 ∧
      codesUnique (add_bulk_certificates [] none).2 :=
  C2_code_uniqueness_invariant [] (by simp [codesUnique]) none none

/-- C3: whenever the bulk handler answers with the success message
`Successfully added N certificates.`, the resulting store holds exactly
N more records than before: the reported count equals the number of
records actually written by the batch insert. -/
theorem C3_reported_count_matches_written (s : Store)
    (data : Option (Option (List CertPayload))) (k : Nat) (t : Store)
    (h : add_bulk_certificates s data = (.added k, t)) :
    t.length = s.length + k := by
  match data with
  | none => simp [add_bulk_certificates] at h
  | some none => simp [add_bulk_certificates] at h
  | some (some items) =>
    unfold add_bulk_certificates at h
    by_cases h1 : (certsToAdd s items).isEmpty
    · simp [h1] at h
    · by_cases h2 : insertManyOk s (certsToAdd s items)
      · simp only [h1, Bool.false_eq_true, if_false, h2, if_true,
          Prod.mk.injEq, BulkResult.added.injEq] at h
        obtain ⟨hk, ht⟩ := h
        rw [← ht, List.length_append, length_assignIds, hk]
      · simp [h1, h2] at h

/-- C3 witness: a one-item batch on the empty store reports 1 and the
store grows by exactly 1 record. -/
theorem C3_reported_count_matches_written_witness :
    ([⟨1, "A", "1", "x"⟩] : Store).length = ([] : Store).length + 1 :=
  C3_reported_count_matches_written [] (some (some [⟨some "A", some "1", some "x"⟩]))
    1 [⟨1, "A", "1", "x"⟩] rfl

/-- C4: a single-add whose code already has a row in the store returns
the duplicate-code error with HTTP 409 and leaves the store untouched:
the existing record is unchanged and nothing is written. -/
theorem C4_duplicate_code_rejected (s : Store) (n c img : String)
    (h : (queryFilterByCodeFirst s c).isSome = true) :
    add_certificate s (some ⟨some n, some c, some img⟩) = (.duplicate, s) ∧
      SingleResult.duplicate.status = 409 := by
  refine ⟨?_, rfl⟩
  unfold add_certificate
  simp [h]

/-- C4 witness: adding code `1` again on a store that already holds it
yields the 409 response and the identical store. -/
theorem C4_duplicate_code_rejected_witness :
    add_certificate [⟨1, "A", "1", "x"⟩] (some ⟨some "B", some "1", some "y"⟩) =
        (.duplicate, [⟨1, "A", "1", "x"⟩]) ∧
      SingleResult.duplicate.status = 409 :=
  C4_duplicate_code_rejected [⟨1, "A", "1", "x"⟩] "B" "1" "y" rfl

/-- C5: a single-add whose body is absent or lacks one of `name`,
`code`, `image_data` returns the missing-data error with HTTP 400 and
leaves the store completely unchanged. -/
theorem C5_missing_fields_rejected (s : Store) (d : Option CertPayload)
    (h : d = none ∨ ∃ p, d = some p ∧
      (p.name = none ∨ p.code = none ∨ p.image_data = none)) :
    add_certificate s d = (.missingData, s) ∧
      SingleResult.missingData.status = 400 := by
  refine ⟨?_, rfl⟩
  rcases h with rfl | ⟨⟨pn, pc, pi⟩, rfl, hmiss⟩
  · rfl
  · cases pn <;> cases pc <;> cases pi <;> first | rfl | simp at hmiss

/-- C5 witness: a body lacking `name` is rejected with 400 and the
store is unchanged. -/
theorem C5_missing_fields_rejected_witness :
    add_certificate [] (some ⟨none, some "1", some "x"⟩) = (.missingData, []) ∧
      SingleResult.missingData.status = 400 :=
  C5_missing_fields_rejected [] (some ⟨none, some "1", some "x"⟩)
    (Or.inr ⟨⟨none, some "1", some "x"⟩, rfl, Or.inl rfl⟩)

/-- C6: a bulk request in which every item is malformed or carries a
code already present in the store returns the HTTP 200 zero-additions
response and leaves the store unchanged. -/
theorem C6_all_rejected_is_noop (s : Store) (items : List CertPayload)
    (h : ∀ it ∈ items, it.name = none ∨ it.code = none ∨ it.image_data = none ∨
      ∃ c, it.code = some c ∧ (queryFilterByCodeFirst s c).isSome = true) :
    add_bulk_certificates s (some (some items)) = (.noNew, s) ∧
      BulkResult.noNew.status = 200 := by
  refine ⟨?_, rfl⟩
  unfold add_bulk_certificates
  simp [certsToAdd_eq_nil s items h]

/-- C6 witness: a batch of one item missing `name` and one item whose
code is already stored is a 200 no-op. -/
theorem C6_all_rejected_is_noop_witness :
    add_bulk_certificates [⟨1, "A", "1", "x"⟩]
        (some (some [⟨none, some "9", some "x"⟩, ⟨some "B", some "1", some "y"⟩])) =
      (.noNew, [⟨1, "A", "1", "x"⟩]) :=
  (C6_all_rejected_is_noop [⟨1, "A", "1", "x"⟩]
    [⟨none, some "9", some "x"⟩, ⟨some "B", some "1", some "y"⟩]
    (by
      intro it hit
      simp only [List.mem_cons, List.not_mem_nil, or_false] at hit
      rcases hit with rfl | rfl
      · exact Or.inl rfl
      · exact Or.inr (Or.inr (Or.inr ⟨"1", rfl, rfl⟩)))).1

/-- C7: round-trip.  A valid single-add whose code is not yet stored
succeeds with the next id and an immediate lookup returns the same
three fields; and after a successful bulk insert every accepted record
is retrievable by its code with the same three fields, `image_data`
identical. -/
theorem C7_round_trip (s : Store) (n c img : String) (items : List CertPayload)
    (k : Nat) (t : Store)
    (h1 : queryFilterByCodeFirst s c = none)
    (h2 : add_bulk_certificates s (some (some items)) = (.added k, t)) :
    ((add_certificate s (some ⟨some n, some c, some img⟩)).1 =
        .created (s.length + 1) ∧
      (get_certificate (add_certificate s (some ⟨some n, some c, some img⟩)).2 c).1 =
        .found n c img) ∧
    ∀ r ∈ certsToAdd s items,
      (get_certificate t r.code).1 = .found r.name r.code r.image_data := by
  constructor
  · have hstep : add_certificate s (some ⟨some n, some c, some img⟩) =
        (.created (s.length + 1), s ++ [⟨s.length + 1, n, c, img⟩]) := by
      unfold add_certificate
      simp [h1]
    refine ⟨by rw [hstep], ?_⟩
    rw [hstep]
    unfold get_certificate
    rw [query_append_of_none h1]
    simp [queryFilterByCodeFirst]
  · unfold add_bulk_certificates at h2
    by_cases he : (certsToAdd s items).isEmpty
    · simp [he] at h2
    · by_cases hok : insertManyOk s (certsToAdd s items)
      · simp only [he, Bool.false_eq_true, if_false, hok, if_true,
          Prod.mk.injEq, BulkResult.added.injEq] at h2
        obtain ⟨hk, ht⟩ := h2
        obtain ⟨hnd, habs⟩ := insertManyOk_spec hok
        intro r hr
        obtain ⟨i, hq⟩ := query_assignIds_of_mem hnd hr s.length
        unfold get_certificate
        rw [← ht, query_append_of_none (habs r hr), hq]
      · simp [he, hok] at h2

/-- C7 witness: on the empty store, single-add of `(A, 1, x)` and a
bulk insert of `(C, 2, z)` both round-trip through lookup. -/
theorem C7_round_trip_witness :
    ((add_certificate [] (some ⟨some "A", some "1", some "x"⟩)).1 = .created 1 ∧
      (get_certificate (add_certificate [] (some ⟨some "A", some "1", some "x"⟩)).2
          "1").1 = .found "A" "1" "x") ∧
    (get_certificate [⟨1, "C", "2", "z"⟩] "2").1 = .found "C" "2" "z" :=
  ⟨(C7_round_trip [] "A" "1" "x" [⟨some "C", some "2", some "z"⟩] 1
      [⟨1, "C", "2", "z"⟩] rfl rfl).1,
    (C7_round_trip [] "A" "1" "x" [⟨some "C", some "2", some "z"⟩] 1
      [⟨1, "C", "2", "z"⟩] rfl rfl).2 ⟨"C", "2", "z"⟩ (by decide)⟩

/-- C8: the bulk handler answers the missing-certificate-list error
exactly when the body is absent (or falsy) or lacks the `certificates`
key, the error carries HTTP 400, and in that case the store is
unchanged. -/
theorem C8_malformed_batch_spec (s : Store)
    (data : Option (Option (List CertPayload))) :
    ((add_bulk_certificates s data).1 = .missingList ↔
      data = none ∨ data = some none) ∧
    (data = none ∨ data = some none →
      add_bulk_certificates s data = (.missingList, s)) ∧
    BulkResult.missingList.status = 400 := by
  match data with
  | none => exact ⟨⟨fun _ => Or.inl rfl, fun _ => rfl⟩, fun _ => rfl, rfl⟩
  | some none => exact ⟨⟨fun _ => Or.inr rfl, fun _ => rfl⟩, fun _ => rfl, rfl⟩
  | some (some items) =>
    refine ⟨?_, by rintro (h | h) <;> simp at h, rfl⟩
    unfold add_bulk_certificates
    by_cases h1 : (certsToAdd s items).isEmpty <;>
      by_cases h2 : insertManyOk s (certsToAdd s items) <;> simp [h1, h2]

/-- C8 witness: a missing body yields the 400 error and the identical
store. -/
theorem C8_malformed_batch_spec_witness :
    add_bulk_certificates [] none = (.missingList, []) :=
  (C8_malformed_batch_spec [] none).2.1 (Or.inl rfl)

/-- C9: single-add validation is presence-only: any body that carries
all three keys passes it, empty-string values included, and the
handler proceeds to the duplicate check (it answers either 409 or 201,
never the missing-data error). -/
theorem C9_validation_is_presence_only (s : Store) (n c img : String) :
    (add_certificate s (some ⟨some n, some c, some img⟩)).1 = .duplicate ∨
      (add_certificate s (some ⟨some n, some c, some img⟩)).1 =
        .created (s.length + 1) := by
  unfold add_certificate
  by_cases h : (queryFilterByCodeFirst s c).isSome <;> simp [h]

/-- C10: the lookup endpoint is read-only: for every code and store it
returns the store unchanged, found or not. -/
theorem C10_lookup_is_readonly (s : Store) (c : String) :
    (get_certificate s c).2 = s := by
  unfold get_certificate
  cases queryFilterByCodeFirst s c <;> rfl

end CertApp
